import Mathlib

/-!
Verification of the DespensaApp ledger core (`src/App.jsx`): daily cash
reconciliation, store-credit ("fiado") ledger, sale recording and the
closed-day lock.  JavaScript numbers are modelled as exact rationals `ℚ`
(all money values in the app originate from decimal user input), strings
as Lean `String`, optional JS fields as `Option`, and the per-user JSON
document as an explicit `AppState` record.  UI handlers that mutate the
document through `setData` become functions `AppState → AppState` (or
`Except String AppState` when the handler can refuse with an `alert`);
`prompt`/`confirm` dialog results and the random `uid()` / `Date.now`
values are passed in as explicit parameters.
-/

/- Rational arithmetic must evaluate inside `decide`/`rfl` proofs below, so the
four `Rat` operations that Batteries ships `@[irreducible]` are restored to the
default transparency (this changes no definition and no proof obligation, only
what the elaborator may unfold). -/
set_option allowUnsafeReducibility true

attribute [semireducible] Rat.add Rat.mul Rat.inv Rat.sub

namespace Despensa

/-- `Producto`: a catalog entry `{id, ean, nombre, precio}`. -/
structure Producto where
  id : String
  ean : String
  nombre : String
  precio : ℚ
deriving DecidableEq, Repr

/-- A payment entry `{metodo, monto}` carried by a sale (`venta.pagos`). -/
structure Pago where
  metodo : String
  monto : ℚ
deriving DecidableEq, Repr

/-- A pending payment row of the multi-payment form: `{id, metodo, monto}`;
the `id` is stripped off when the sale is recorded. -/
structure PagoTemp where
  id : String
  metodo : String
  monto : ℚ
deriving DecidableEq, Repr

/-- A cart line `{id, ean, nombre, precio, qty}` built by `addByCode`. -/
structure Item where
  id : String
  ean : String
  nombre : String
  precio : ℚ
  qty : ℚ
deriving DecidableEq, Repr

/-- A recorded sale `{id, fecha, items, metodo, total, pagos}`; the
`cierreFecha` field is absent (`none`) until a daily closing stamps it. -/
structure Venta where
  id : String
  fecha : String
  items : List Item
  metodo : String
  total : ℚ
  pagos : List Pago
  cierreFecha : Option String := none
deriving DecidableEq, Repr

/-- An expense/purchase row `{id, fecha, tipo, proveedor, descripcion, monto}`. -/
structure Gasto where
  id : String
  fecha : String
  tipo : String
  proveedor : String
  descripcion : String
  monto : ℚ
deriving DecidableEq, Repr

/-- A credit-charge line `{ean, qty, precioUnitario?}`; `precioUnitario` is
present exactly when the catalog price was 0 at charge time. -/
structure CargoItem where
  ean : String
  qty : ℚ
  precioUnitario : Option ℚ := none
deriving DecidableEq, Repr

/-- A credit charge `{id, fecha, items}`. -/
structure Cargo where
  id : String
  fecha : String
  items : List CargoItem
deriving DecidableEq, Repr

/-- A credit payment `{id, fecha, monto}`. -/
structure Abono where
  id : String
  fecha : String
  monto : ℚ
deriving DecidableEq, Repr

/-- A credit account `{id, nombre, cargos, abonos}` ("fiador"). -/
structure Fiador where
  id : String
  nombre : String
  cargos : List Cargo
  abonos : List Abono
deriving DecidableEq, Repr

/-- A day-closing record `{efectivoCajaProxDia?, efectivoPedidosYa?, cerrado}`;
the two cash fields are absent until first edited. -/
structure Cierre where
  efectivoCajaProxDia : Option ℚ := none
  efectivoPedidosYa : Option ℚ := none
  cerrado : Bool := false
deriving DecidableEq, Repr

/-- The per-user ledger document
`{productos, ventas, gastos, proveedores, cierres, fiados}`.  The JS object
keyed by date string `cierres` is modelled as an association list. -/
structure AppState where
  productos : List Producto
  ventas : List Venta
  gastos : List Gasto
  proveedores : List String
  cierres : List (String × Cierre)
  fiados : List Fiador
deriving DecidableEq, Repr

/-- `cierres[fecha]` lookup. -/
def lookupCierre (cierres : List (String × Cierre)) (fecha : String) : Option Cierre :=
  (cierres.find? (fun e => decide (e.1 = fecha))).map (fun e => e.2)

/-- `{...cierres, [fecha]: rec}`: object update, modelled as prepend-and-drop
on the association list (extensionally the same map). -/
def setCierre (fecha : String) (rec : Cierre) (cierres : List (String × Cierre)) :
    List (String × Cierre) :=
  (fecha, rec) :: cierres.filter (fun e => decide (¬ e.1 = fecha))

/-! ### JS string and number primitives

`parseMoneyInput` and `String(number)` are re-implemented over `List Char`
so that every definition reduces in the kernel.  `parseFloat`'s exponent
and `Infinity` forms are not modelled: no input in the modelled flows
produces them. -/

/-- Value of a digit string (most significant first). -/
def digitsVal (cs : List Char) : ℕ :=
  cs.foldl (fun a c => 10 * a + (c.toNat - '0'.toNat)) 0

/-- `parseFloat` on an unsigned decimal prefix: digits, optional point,
digits; `none` models `NaN` (no leading digits at all). -/
def parseUnsigned (cs : List Char) : Option ℚ :=
  let intCs := cs.takeWhile Char.isDigit
  let rest := cs.dropWhile Char.isDigit
  let fracCs := match rest with
    | c :: r => if c = '.' then r.takeWhile Char.isDigit else []
    | [] => []
  if intCs.isEmpty ∧ fracCs.isEmpty then none
  else some ((digitsVal intCs : ℚ) + (digitsVal fracCs : ℚ) / (10 : ℚ) ^ fracCs.length)

/-- JS `parseFloat`: skip leading whitespace, optional sign, decimal prefix. -/
def parseFloatQ (s : String) : Option ℚ :=
  match s.data.dropWhile Char.isWhitespace with
  | [] => none
  | c :: r =>
    if c = '-' then (parseUnsigned r).map (fun q => -q)
    else if c = '+' then parseUnsigned r
    else parseUnsigned (c :: r)

/-- `raw.replace(/\./g, "")`: drop every `'.'`. -/
def stripDots (cs : List Char) : List Char :=
  cs.filter (fun c => decide (¬ c = '.'))

/-- `raw.replace(",", ".")`: JS `String.replace` with a string pattern
replaces only the first occurrence. -/
def replaceFirstComma : List Char → List Char
  | [] => []
  | c :: cs => if c = ',' then '.' :: cs else c :: replaceFirstComma cs

/-- `parseMoneyInput` applied to a string value:
`parseFloat(String(v).replace(/\./g, "").replace(",", "."))`, `0` when the
parse gives `NaN`. -/
def parseMoneyInputStr (s : String) : ℚ :=
  (parseFloatQ (String.mk (replaceFirstComma (stripDots s.data)))).getD 0

/-- Digit character for `n < 10`. -/
def digitChar (n : ℕ) : Char := Char.ofNat ('0'.toNat + n)

/-- Decimal digits of `n` (fuel-indexed helper). -/
def natToDigits : ℕ → ℕ → List Char
  | 0, _ => []
  | fuel + 1, n =>
    if n < 10 then [digitChar n]
    else natToDigits fuel (n / 10) ++ [digitChar (n % 10)]

/-- Decimal rendering of a natural number. -/
def natStr (n : ℕ) : String := String.mk (natToDigits (n + 1) n)

/-- Left-pad with zeros to width `k`. -/
def padZeros (k : ℕ) (s : String) : String :=
  String.mk (List.replicate (k - s.length) '0') ++ s

/-- Number of decimal digits needed after the point to render `q` exactly
(searched up to 100, enough for every value a JS double can print). -/
def decExp (q : ℚ) : ℕ :=
  ((List.range 100).find? (fun k => decide ((q * (10 : ℚ) ^ k).den = 1))).getD 0

/-- Decimal rendering of a positive rational with finite decimal expansion,
as JS `String(number)` prints it (shortest exact form, no exponent). -/
def jsStringOfPos (q : ℚ) : String :=
  let k := decExp q
  let n := (q * (10 : ℚ) ^ k).num.toNat
  if k = 0 then natStr n
  else natStr (n / 10 ^ k) ++ "." ++ padZeros k (natStr (n % 10 ^ k))

/-- JS `String(number)` for the exact-rational model of a double. -/
def jsStringNum (q : ℚ) : String :=
  if q < 0 then "-" ++ jsStringOfPos (-q)
  else if q = 0 then "0"
  else jsStringOfPos q

/-- `parseMoneyInput` applied to a *number* `v`: the source first coerces
with `String(v || "")`, so `0` becomes the empty string and any other
number is printed and re-parsed — which silently drops the decimal point
(`"."` is treated as a thousands separator). -/
def parseMoneyInputNum (q : ℚ) : ℚ :=
  parseMoneyInputStr (if q = 0 then "" else jsStringNum q)

/-- Lowercasing, as used by every case-insensitive name/ean match. -/
def toLowerStr (s : String) : String := String.mk (s.data.map Char.toLower)

/-- `String.prototype.trim`. -/
def trimStr (s : String) : String :=
  String.mk (((s.data.dropWhile Char.isWhitespace).reverse.dropWhile Char.isWhitespace).reverse)

/-! ### Calendar arithmetic for `prevDateStr` -/

/-- Gregorian leap-year test. -/
def isLeap (y : ℕ) : Bool :=
  decide ((y % 4 = 0 ∧ ¬ y % 100 = 0) ∨ y % 400 = 0)

/-- Days in month `m` of year `y`. -/
def daysInMonth (y m : ℕ) : ℕ :=
  if m = 2 then (if isLeap y then 29 else 28)
  else if m = 4 ∨ m = 6 ∨ m = 9 ∨ m = 11 then 30
  else 31

/-- Split a character list at a separator. -/
def splitChar (sep : Char) : List Char → List (List Char)
  | [] => [[]]
  | c :: cs =>
    if c = sep then [] :: splitChar sep cs
    else
      match splitChar sep cs with
      | [] => [[c]]
      | g :: gs => (c :: g) :: gs

/-- `prevDateStr`: the ISO day before `fecha`, as computed by
`new Date(fecha+"T00:00:00"); d.setDate(d.getDate()-1)` followed by
`toISOString().slice(0,10)` (the app runs in a UTC-or-behind locale, where
this is exactly the previous calendar day). -/
def prevDateISO (fecha : String) : String :=
  match splitChar '-' fecha.data with
  | [ys, ms, ds] =>
    let y := digitsVal ys
    let m := digitsVal ms
    let d := digitsVal ds
    let t : ℕ × ℕ × ℕ :=
      if 1 < d then (y, m, d - 1)
      else if 1 < m then (y, m - 1, daysInMonth y (m - 1))
      else (y - 1, 12, 31)
    padZeros 4 (natStr t.1) ++ "-" ++ padZeros 2 (natStr t.2.1) ++ "-" ++ padZeros 2 (natStr t.2.2)
  | _ => fecha

/-! ### Markup prices (`pedidosYaPrice`, `rappiPrice`) -/

/-- `pedidosYaPrice`: `precio / (1 - 29.5%)`, rounded up; `0` for a
non-positive base. -/
def pedidosYaPrice (precio : ℚ) : ℤ :=
  if precio ≤ 0 then 0 else ⌈precio / (1 - (295 : ℚ) / 1000)⌉

/-- `rappiPrice`: `precio / (1 - 20%)`, rounded up; `0` for a non-positive
base. -/
def rappiPrice (precio : ℚ) : ℤ :=
  if precio ≤ 0 then 0 else ⌈precio / (1 - (20 : ℚ) / 100)⌉

/-! ### Credit balance (`computeSaldoPersona`) -/

/-- `new Map(productos.map(p => [p.ean, p])).get(ean)`: a JS `Map` built from
an entry list keeps the *last* entry for a duplicated key. -/
def lookupProd (productos : List Producto) (ean : String) : Option Producto :=
  productos.reverse.find? (fun p => decide (p.ean = ean))

/-- The per-item base price of `computeSaldoPersona`: the frozen
`precioUnitario` when the field is a number, else the current catalog price,
else 0 when the product is missing. -/
def precioBaseItem (productos : List Producto) (item : CargoItem) : ℚ :=
  match item.precioUnitario with
  | some pu => pu
  | none =>
    match lookupProd productos item.ean with
    | some prod => prod.precio
    | none => 0

/-- `computeSaldoPersona(fiador, productos)`: total of charges minus total of
payments. -/
def computeSaldoPersona (fiador : Fiador) (productos : List Producto) : ℚ :=
  let totalCargos :=
    fiador.cargos.foldl
      (fun acc cargo =>
        cargo.items.foldl (fun a item => a + precioBaseItem productos item * item.qty) acc)
      0
  let totalAbonos := fiador.abonos.foldl (fun a b => a + b.monto) 0
  totalCargos - totalAbonos

/-! ### New sale (`NuevaVenta`) -/

/-- The cart total `items.reduce((acc, i) => acc + i.precio * i.qty, 0)`. -/
def cartTotal (items : List Item) : ℚ :=
  items.foldl (fun acc i => acc + i.precio * i.qty) 0

/-- `pagosTemp.reduce((a, p) => a + (p.monto || 0), 0)`. -/
def pagosTempTotal (pagosTemp : List PagoTemp) : ℚ :=
  pagosTemp.foldl (fun a p => a + p.monto) 0

/-- `pagos.reduce((a, p) => a + (p.monto || 0), 0)`. -/
def pagosTotal (pagos : List Pago) : ℚ :=
  pagos.foldl (fun a p => a + p.monto) 0

/-- `addByCode`: look the trimmed code up case-insensitively in the catalog;
a hit with catalog price 0 uses the manually prompted price instead
(`manual`, `none` when the user cancels the prompt — its loop only ends on
cancel or on a validated price).  The cart either increments a line with the
same `ean` and the same price or appends a fresh line (id `newId`, qty 1).
The handler never writes the catalog, so the catalog component of the result
is the input `productos`. -/
def addByCode (codigo : String) (productos : List Producto) (items : List Item)
    (manual : Option ℚ) (newId : String) : Option (List Item × List Producto) :=
  let code := trimStr codigo
  if code = "" then none
  else
    match productos.find? (fun x => decide (toLowerStr x.ean = toLowerStr code)) with
    | none => none
    | some prod =>
      let precioElegido : Option ℚ := if prod.precio = 0 then manual else some prod.precio
      match precioElegido with
      | none => none
      | some precio =>
        let items' :=
          if items.any (fun i => decide (i.ean = prod.ean ∧ i.precio = precio)) then
            items.map (fun i =>
              if decide (i.ean = prod.ean ∧ i.precio = precio) then
                { i with qty := i.qty + 1 }
              else i)
          else
            items ++ [{ id := newId, ean := prod.ean, nombre := prod.nombre,
                        precio := precio, qty := 1 }]
        some (items', productos)

/-- The charge lines a fiado records: for each cart line, freeze the cart
price as `precioUnitario` exactly when the product's *current* catalog price
is 0 (or the product is gone); otherwise record only `ean`/`qty`. -/
def cargoItemsOf (items : List Item) (productos : List Producto) : List CargoItem :=
  items.map (fun i =>
    let prodPrecio :=
      match productos.find? (fun p => decide (p.ean = i.ean)) with
      | some prod => prod.precio
      | none => 0
    if prodPrecio = 0 then { ean := i.ean, qty := i.qty, precioUnitario := some i.precio }
    else { ean := i.ean, qty := i.qty, precioUnitario := none })

/-- Prepend `cargo` to the first account whose name matches
case-insensitively (the source's `findIndex` + positional update). -/
def addCargoFirstMatch (nombre : String) (cargo : Cargo) : List Fiador → List Fiador
  | [] => []
  | p :: ps =>
    if toLowerStr p.nombre = toLowerStr nombre then
      { p with cargos := cargo :: p.cargos } :: ps
    else p :: addCargoFirstMatch nombre cargo ps

/-- `finalizar`: close the sale form.  `fiadoNombre` is the prompt's answer
in fiado mode (the source turns a cancelled prompt into `""`); `now` is
`new Date().toISOString()`; the `new…Id` parameters stand for the `uid()`
calls.  Errors are the source's `alert` refusals, each leaving the document
untouched. -/
def finalizar (items : List Item) (metodo : String) (multiPago : Bool)
    (pagosTemp : List PagoTemp) (fiadoNombre : String)
    (now newVentaId newFiadorId newCargoId : String) (s : AppState) :
    Except String AppState :=
  if items = [] then .error "Agrega articulos a la venta."
  else if items.any (fun it => decide (it.precio < 0)) then
    .error "Revisa los precios ingresados (no pueden ser negativos)."
  else if metodo = "fiado" then
    let nombre := trimStr fiadoNombre
    if nombre = "" then .error "Debes indicar un nombre para registrar el fiado."
    else
      let cargo : Cargo := { id := newCargoId, fecha := now, items := cargoItemsOf items s.productos }
      let fiadosActualizados :=
        if s.fiados.any (fun p => decide (toLowerStr p.nombre = toLowerStr nombre)) then
          addCargoFirstMatch nombre cargo s.fiados
        else
          s.fiados ++ [{ id := newFiadorId, nombre := nombre, cargos := [cargo], abonos := [] }]
      .ok { s with fiados := fiadosActualizados }
  else if multiPago then
    if pagosTemp = [] then .error "Agrega al menos un metodo de pago."
    else if 1 / 100 < |pagosTempTotal pagosTemp - cartTotal items| then
      .error "La suma de los metodos de pago no coincide con el total de la venta."
    else
      let venta : Venta :=
        { id := newVentaId, fecha := now, items := items, metodo := "mixto",
          total := cartTotal items,
          pagos := pagosTemp.map (fun p => { metodo := p.metodo, monto := p.monto }),
          cierreFecha := none }
      .ok { s with ventas := venta :: s.ventas }
  else
    let venta : Venta :=
      { id := newVentaId, fecha := now, items := items, metodo := metodo,
        total := cartTotal items,
        pagos := [{ metodo := metodo, monto := cartTotal items }],
        cierreFecha := none }
    .ok { s with ventas := venta :: s.ventas }

/-! ### Recent sales (`VentasRecientes`) -/

/-- The closed-day lock test used by `eliminarVenta` and `actualizarMetodo`:
`venta.cierreFecha && cierres[venta.cierreFecha] && …cerrado`. -/
def ventaBloqueada (cierres : List (String × Cierre)) (v : Venta) : Bool :=
  match v.cierreFecha with
  | none => false
  | some f =>
    match lookupCierre cierres f with
    | none => false
    | some rec => rec.cerrado

/-- `eliminarVenta(id)`: refuse when the sale belongs to a closed day, else
(after the user confirms) drop it from the sales collection. -/
def eliminarVenta (id : String) (s : AppState) : Except String AppState :=
  let blocked :=
    match s.ventas.find? (fun v => decide (v.id = id)) with
    | some v => ventaBloqueada s.cierres v
    | none => false
  if blocked then .error "Esta venta pertenece a un dia ya cerrado y no puede eliminarse."
  else .ok { s with ventas := s.ventas.filter (fun v => decide (¬ v.id = id)) }

/-- The per-sale rewrite `actualizarMetodo` maps over the collection: the
matching sale gets the new method, and its single payment entry (when it has
exactly one) gets the method too. -/
def aplicarMetodo (id metodo : String) (v : Venta) : Venta :=
  if v.id = id then
    { v with
      metodo := metodo,
      pagos :=
        match v.pagos with
        | [p] => [{ p with metodo := metodo }]
        | ps => ps }
  else v

/-- `actualizarMetodo(id, metodo)`: silently ignore an unknown id; refuse a
sale on a closed day; refuse a multi-payment sale; otherwise rewrite the
method. -/
def actualizarMetodo (id metodo : String) (s : AppState) : Except String AppState :=
  match s.ventas.find? (fun v => decide (v.id = id)) with
  | none => .ok s
  | some v =>
    if ventaBloqueada s.cierres v then
      .error "Esta venta pertenece a un dia ya cerrado y no puede modificarse."
    else if 1 < v.pagos.length then
      .error "Esta venta tiene multiples metodos de pago."
    else .ok { s with ventas := s.ventas.map (aplicarMetodo id metodo) }

/-! ### Daily closing (`CierreDiario`) -/

/-- The day's sales for the closing view: the ones stamped with this date,
plus — while the day is still open — every unassigned sale. -/
def ventasDelDia (ventas : List Venta) (fecha : String) (cerrado : Bool) : List Venta :=
  let ventasAsignadas := ventas.filter (fun v => decide (v.cierreFecha = some fecha))
  let ventasSinAsignar := ventas.filter (fun v => decide (v.cierreFecha = none))
  if cerrado then ventasAsignadas else ventasAsignadas ++ ventasSinAsignar

/-- `sumVentas(metodo)`: per-method total, summing payment entries of that
method when the sale carries a non-empty payment list, else the flat total
when the sale's own method matches. -/
def sumVentasMetodo (ventasDia : List Venta) (metodo : String) : ℚ :=
  ventasDia.foldl
    (fun a v =>
      if v.pagos = [] then a + (if v.metodo = metodo then v.total else 0)
      else a + pagosTotal (v.pagos.filter (fun p => decide (p.metodo = metodo))))
    0

/-- `cierres[fecha] && cierres[fecha].cerrado`. -/
def diaCerrado (cierres : List (String × Cierre)) (fecha : String) : Bool :=
  match lookupCierre cierres fecha with
  | some rec => rec.cerrado
  | none => false

/-- `dineroCajaDiaAnterior`: the previous day's stored
`efectivoCajaProxDia` (a number, 0 when the record or field is missing) fed
back through `parseMoneyInput`. -/
def dineroCajaDiaAnterior (cierres : List (String × Cierre)) (fecha : String) : ℚ :=
  let prevDateStr := prevDateISO fecha
  let stored :=
    match lookupCierre cierres prevDateStr with
    | some rec => rec.efectivoCajaProxDia.getD 0
    | none => 0
  parseMoneyInputNum stored

/-- `efectivoTotalDisponible`: the daily-closing view's total available
cash.  `efCajaRaw`/`efPedYaRaw` are the two text inputs of the view (the
component state the sums parse). -/
def efectivoTotalDisponible (s : AppState) (fecha efCajaRaw efPedYaRaw : String) : ℚ :=
  let cerrado := diaCerrado s.cierres fecha
  let efectivoDia := sumVentasMetodo (ventasDelDia s.ventas fecha cerrado) "efectivo"
  efectivoDia + dineroCajaDiaAnterior s.cierres fecha
    + parseMoneyInputStr efPedYaRaw - parseMoneyInputStr efCajaRaw

/-- `updateCierreValue("efectivoCajaProxDia", raw)`: parse and store the
typed carry amount in the day's record (creating it open). -/
def updateCierreCajaProxDia (fecha raw : String) (s : AppState) : AppState :=
  let num := parseMoneyInputStr raw
  let prev := (lookupCierre s.cierres fecha).getD {}
  { s with cierres := setCierre fecha { prev with efectivoCajaProxDia := some num } s.cierres }

/-- `cerrarDefinitivo` (confirmation accepted): snapshot the two parsed cash
fields, set `cerrado`, and stamp every unassigned sale with this date. -/
def cerrarDefinitivo (fecha : String) (caja pedYa : ℚ) (s : AppState) : AppState :=
  let prev := (lookupCierre s.cierres fecha).getD {}
  let cierresNuevos :=
    setCierre fecha
      { prev with efectivoCajaProxDia := some caja, efectivoPedidosYa := some pedYa,
                  cerrado := true }
      s.cierres
  let ventasConCierre :=
    s.ventas.map (fun v =>
      if v.cierreFecha.isSome then v else { v with cierreFecha := some fecha })
  { s with cierres := cierresNuevos, ventas := ventasConCierre }

/-- `reabrirDia` (confirmation accepted): no-op unless the day is closed;
clear `cerrado` and un-stamp every sale attributed to this date. -/
def reabrirDia (fecha : String) (s : AppState) : AppState :=
  if ¬ diaCerrado s.cierres fecha then s
  else
    let prev := (lookupCierre s.cierres fecha).getD {}
    let cierresNuevos := setCierre fecha { prev with cerrado := false } s.cierres
    let ventasReabiertas :=
      s.ventas.map (fun v =>
        if v.cierreFecha = some fecha then { v with cierreFecha := none } else v)
    { s with cierres := cierresNuevos, ventas := ventasReabiertas }

/-! ### Credit payments (`Fiados.agregarAbono`) -/

/-- The fixed settlement secret of `agregarAbono`. -/
def PASSWORD_ABONO : String := "19256436"

/-- Prepend the payment to every account whose name matches
case-insensitively (the source maps the whole collection). -/
def addAbonoIfMatch (nombre : String) (abono : Abono) (p : Fiador) : Fiador :=
  if toLowerStr p.nombre = toLowerStr nombre then { p with abonos := abono :: p.abonos }
  else p

/-- `agregarAbono`: record a credit payment.  Refusals (`alert` + early
return, no state change) are modelled as `none`: empty name, non-positive
parsed amount, no matching account, empty or wrong password.  On success the
payment is prepended to the matching account and every account whose
recomputed balance is ≤ 0.0001 is dropped. -/
def agregarAbono (abonoNombre abonoMonto abonoPassword now newId : String)
    (s : AppState) : Option AppState :=
  let nombre := trimStr abonoNombre
  let monto := parseMoneyInputStr abonoMonto
  if nombre = "" then none
  else if monto ≤ 0 then none
  else if ¬ s.fiados.any (fun p => decide (toLowerStr p.nombre = toLowerStr nombre)) then none
  else if abonoPassword = "" then none
  else if ¬ abonoPassword = PASSWORD_ABONO then none
  else
    let fiados1 := s.fiados.map (addAbonoIfMatch nombre { id := newId, fecha := now, monto := monto })
    let fiados2 := fiados1.filter (fun p => decide (1 / 10000 < computeSaldoPersona p s.productos))
    some { s with fiados := fiados2 }

/-! ### Spec-side definitions (for the refinement claim about balances) -/

/-- Modelled from the spec's words (§3, §4.3): a charge item's price is its
`frozenUnitPrice` when present, else the product's current catalog price,
else 0 when the product is missing from the catalog. -/
def specItemPrice (productos : List Producto) (item : CargoItem) : ℚ :=
  match item.precioUnitario with
  | some frozen => frozen
  | none => ((lookupProd productos item.ean).map (fun p => p.precio)).getD 0

/-- Modelled from the spec's words (§3): `balance(account) = Σ(charge item
price × qty) − Σ(payment amounts)`. -/
def balanceSpec (fiador : Fiador) (productos : List Producto) : ℚ :=
  ((fiador.cargos.map (fun c => (c.items.map (fun it => specItemPrice productos it * it.qty)).sum)).sum)
    - (fiador.abonos.map (fun b => b.monto)).sum

/-! ### Helper lemmas -/

/-- A left fold accumulating `+ f x` is the initial value plus the mapped sum. -/
theorem foldl_add_map_sum {α : Type} (f : α → ℚ) :
    ∀ (l : List α) (a : ℚ), l.foldl (fun acc x => acc + f x) a = a + (l.map f).sum := by
  intro l
  induction l with
  | nil => intro a; simp
  | cons x xs ih => intro a; simp [ih, add_assoc]

/-- The nested charge fold of `computeSaldoPersona` is the double mapped sum. -/
theorem foldl_cargos_map_sum (g : CargoItem → ℚ) :
    ∀ (cs : List Cargo) (a : ℚ),
      cs.foldl (fun acc c => c.items.foldl (fun x it => x + g it) acc) a
        = a + (cs.map (fun c => (c.items.map g).sum)).sum := by
  intro cs
  induction cs with
  | nil => intro a; simp
  | cons c rest ih =>
    intro a
    simp only [List.foldl_cons, List.map_cons, List.sum_cons, ih, foldl_add_map_sum]
    ring

/-- The item price of `computeSaldoPersona` agrees with the spec's item price. -/
theorem precioBaseItem_eq_spec (productos : List Producto) (item : CargoItem) :
    precioBaseItem productos item = specItemPrice productos item := by
  unfold precioBaseItem specItemPrice
  cases item.precioUnitario with
  | some pu => rfl
  | none => cases lookupProd productos item.ean with
    | some prod => rfl
    | none => rfl

/-! ### C9 -/

/-- C9: both resale markup price functions return `⌈basePrice / (1 − margin)⌉`
when `basePrice > 0` (margins 0.295 and 0.20 respectively) and `0` otherwise;
the result is at least the exact quotient (rounds up), and when the division
is exact the result is that exact integer (no over-rounding at boundaries). -/
theorem c9_markup_prices_ceiling :
    ∀ precio : ℚ,
      (0 < precio →
        pedidosYaPrice precio = ⌈precio / (1 - (295 : ℚ) / 1000)⌉
        ∧ rappiPrice precio = ⌈precio / (1 - (20 : ℚ) / 100)⌉
        ∧ precio / (1 - (295 : ℚ) / 1000) ≤ (pedidosYaPrice precio : ℚ)
        ∧ precio / (1 - (20 : ℚ) / 100) ≤ (rappiPrice precio : ℚ))
      ∧ (precio ≤ 0 → pedidosYaPrice precio = 0 ∧ rappiPrice precio = 0)
      ∧ (∀ n : ℤ, 0 < precio → precio / (1 - (295 : ℚ) / 1000) = (n : ℚ) →
          pedidosYaPrice precio = n)
      ∧ (∀ n : ℤ, 0 < precio → precio / (1 - (20 : ℚ) / 100) = (n : ℚ) →
          rappiPrice precio = n) := by
  intro precio
  refine ⟨fun hp => ?_, fun hn => ?_, fun n hp hx => ?_, fun n hp hx => ?_⟩
  · have h1 : pedidosYaPrice precio = ⌈precio / (1 - (295 : ℚ) / 1000)⌉ := by
      simp [pedidosYaPrice, not_le.mpr hp]
    have h2 : rappiPrice precio = ⌈precio / (1 - (20 : ℚ) / 100)⌉ := by
      simp [rappiPrice, not_le.mpr hp]
    exact ⟨h1, h2, h1 ▸ Int.le_ceil _, h2 ▸ Int.le_ceil _⟩
  · exact ⟨by simp [pedidosYaPrice, hn], by simp [rappiPrice, hn]⟩
  · simp [pedidosYaPrice, not_le.mpr hp, hx]
  · simp [rappiPrice, not_le.mpr hp, hx]

/-- Witness for C9 at the exact boundary 705 / 0.705 = 1000 and at 80 / 0.8 = 100. -/
theorem c9_markup_prices_ceiling_witness :
    pedidosYaPrice 705 = 1000 ∧ rappiPrice 80 = 100 :=
  ⟨(c9_markup_prices_ceiling 705).2.2.1 1000 (by norm_num) (by norm_num),
   (c9_markup_prices_ceiling 80).2.2.2 100 (by norm_num) (by norm_num)⟩

/-! ### C2 -/

/-- C2: `computeSaldoPersona` equals the spec's balance — the sum over charge
items of price × quantity minus the sum of payment amounts, where an item's
price is its frozen `precioUnitario` when present and otherwise the product's
current catalog price (0 when missing); and an item carrying a frozen price
contributes that frozen price under *every* catalog, so catalog edits never
change its contribution. -/
theorem c2_computeSaldo_matches_spec :
    ∀ (fiador : Fiador) (productos : List Producto),
      computeSaldoPersona fiador productos = balanceSpec fiador productos
      ∧ ∀ (item : CargoItem) (v : ℚ) (productos2 : List Producto),
          item.precioUnitario = some v →
            precioBaseItem productos item = v ∧ precioBaseItem productos2 item = v := by
  intro fiador productos
  constructor
  · unfold computeSaldoPersona balanceSpec
    rw [foldl_cargos_map_sum, foldl_add_map_sum]
    simp [precioBaseItem_eq_spec]
  · intro item v productos2 hfrozen
    constructor <;> simp [precioBaseItem, hfrozen]

/-- Witness for C2: a frozen-price item keeps its frozen price 50 under two
different catalogs. -/
theorem c2_computeSaldo_matches_spec_witness :
    precioBaseItem [] { ean := "123", qty := 1, precioUnitario := some 50 } = 50
    ∧ precioBaseItem [{ id := "p", ean := "123", nombre := "Leche", precio := 80 }]
        { ean := "123", qty := 1, precioUnitario := some 50 } = 50 :=
  (c2_computeSaldo_matches_spec { id := "f", nombre := "Juan", cargos := [], abonos := [] } []).2
    { ean := "123", qty := 1, precioUnitario := some 50 } 50
    [{ id := "p", ean := "123", nombre := "Leche", precio := 80 }] rfl

/-! ### C1 -/

/-- C1: evaluation at the failing input.  Closing 2025-01-01 with the typed
carry "0,5" stores the fractional carry `1/2` in the day's record; the next
day's view then feeds that *number* back through `parseMoneyInput`, whose
`String(v)` round-trip drops the decimal point (`"0.5"` → `"05"`), so the
total available cash comes out as `0 + 5 + 0 − 0 = 5` instead of the claimed
`0 + 1/2 + 0 − 0`.  (With one cash sale of 100 stamped by the close, the
2025-01-02 view has no sales of its own.) -/
theorem c1_carry_reparse_failing_input :
    (let s0 : AppState :=
      { productos := [], gastos := [], proveedores := [], fiados := [],
        ventas := [{ id := "v1", fecha := "2025-01-01T12:00:00.000Z", items := [],
                     metodo := "efectivo", total := 100,
                     pagos := [{ metodo := "efectivo", monto := 100 }], cierreFecha := none }],
        cierres := [] }
     let s1 := cerrarDefinitivo "2025-01-01" (parseMoneyInputStr "0,5") 0 s0
     (lookupCierre s1.cierres "2025-01-01").bind (fun r => r.efectivoCajaProxDia) = some (1 / 2)
     ∧ dineroCajaDiaAnterior s1.cierres "2025-01-02" = 5
     ∧ efectivoTotalDisponible s1 "2025-01-02" "" "" = 5
     ∧ ¬ efectivoTotalDisponible s1 "2025-01-02" "" "" = 0 + 1 / 2 + 0 - 0) := by
  decide

/-! ### C6 -/

/-- C6: a sale whose assigned closing date maps to a closed day record can
be neither deleted nor have its payment method changed — both handlers
refuse (returning the alert message and no new state). -/
theorem c6_closed_day_lock :
    ∀ (s : AppState) (id metodo : String) (v : Venta) (f : String) (rec : Cierre),
      s.ventas.find? (fun w => decide (w.id = id)) = some v →
      v.cierreFecha = some f →
      lookupCierre s.cierres f = some rec →
      rec.cerrado = true →
        eliminarVenta id s
          = .error "Esta venta pertenece a un dia ya cerrado y no puede eliminarse."
        ∧ actualizarMetodo id metodo s
          = .error "Esta venta pertenece a un dia ya cerrado y no puede modificarse." := by
  intro s id metodo v f rec hfind hcf hlook hcer
  have hb : ventaBloqueada s.cierres v = true := by
    simp [ventaBloqueada, hcf, hlook, hcer]
  constructor
  · simp [eliminarVenta, hfind, hb]
  · simp [actualizarMetodo, hfind, hb]

/-- Witness for C6: a one-sale ledger whose sale is stamped to a closed day. -/
theorem c6_closed_day_lock_witness :
    eliminarVenta "v1"
      { productos := [], gastos := [], proveedores := [], fiados := [],
        ventas := [{ id := "v1", fecha := "t", items := [], metodo := "efectivo",
                     total := 100, pagos := [{ metodo := "efectivo", monto := 100 }],
                     cierreFecha := some "2025-01-01" }],
        cierres := [("2025-01-01",
          { efectivoCajaProxDia := some 0, efectivoPedidosYa := some 0, cerrado := true })] }
      = .error "Esta venta pertenece a un dia ya cerrado y no puede eliminarse." :=
  (c6_closed_day_lock
    { productos := [], gastos := [], proveedores := [], fiados := [],
      ventas := [{ id := "v1", fecha := "t", items := [], metodo := "efectivo",
                   total := 100, pagos := [{ metodo := "efectivo", monto := 100 }],
                   cierreFecha := some "2025-01-01" }],
      cierres := [("2025-01-01",
        { efectivoCajaProxDia := some 0, efectivoPedidosYa := some 0, cerrado := true })] }
    "v1" "mercadopago"
    { id := "v1", fecha := "t", items := [], metodo := "efectivo",
      total := 100, pagos := [{ metodo := "efectivo", monto := 100 }],
      cierreFecha := some "2025-01-01" }
    "2025-01-01"
    { efectivoCajaProxDia := some 0, efectivoPedidosYa := some 0, cerrado := true }
    (by decide) rfl (by decide) rfl).1

/-! ### C10 -/

/-- C10: on a sale that is not locked by a closed day, the method update is
refused (no new state) whenever the sale carries more than one payment
entry; with exactly one payment entry the update succeeds, rewriting the
sale's method and that entry's method while preserving the entry's amount,
the sale's total, and every sale with a different id. -/
theorem c10_actualizarMetodo_single_payment :
    ∀ (s : AppState) (id metodo : String) (v : Venta),
      s.ventas.find? (fun w => decide (w.id = id)) = some v →
      ventaBloqueada s.cierres v = false →
        (1 < v.pagos.length →
          actualizarMetodo id metodo s = .error "Esta venta tiene multiples metodos de pago.")
        ∧ (∀ p : Pago, v.pagos = [p] →
            actualizarMetodo id metodo s
              = .ok { s with ventas := s.ventas.map (aplicarMetodo id metodo) }
            ∧ aplicarMetodo id metodo v
                = { v with metodo := metodo, pagos := [{ p with metodo := metodo }] }
            ∧ ({ p with metodo := metodo } : Pago).monto = p.monto
            ∧ ({ v with metodo := metodo,
                        pagos := [{ p with metodo := metodo }] } : Venta).total = v.total
            ∧ ∀ w : Venta, ¬ w.id = id → aplicarMetodo id metodo w = w) := by
  intro s id metodo v hfind hnb
  have hid : v.id = id := by
    have := List.find?_some hfind
    simpa using this
  constructor
  · intro hlen
    simp [actualizarMetodo, hfind, hnb, hlen]
  · intro p hp
    have hlen : ¬ 1 < v.pagos.length := by simp [hp]
    refine ⟨by simp [actualizarMetodo, hfind, hnb, hlen], ?_, rfl, rfl, ?_⟩
    · simp [aplicarMetodo, hid, hp]
    · intro w hw
      simp [aplicarMetodo, hw]

/-- Witness for C10: a two-sale ledger; updating the single-payment sale
"v1" to mercadopago rewrites it and leaves "v2" alone. -/
theorem c10_actualizarMetodo_single_payment_witness :
    actualizarMetodo "v1" "mercadopago"
      { productos := [], gastos := [], proveedores := [], fiados := [], cierres := [],
        ventas := [{ id := "v1", fecha := "t", items := [], metodo := "efectivo",
                     total := 100, pagos := [{ metodo := "efectivo", monto := 100 }],
                     cierreFecha := none },
                   { id := "v2", fecha := "t", items := [], metodo := "posnet",
                     total := 7, pagos := [{ metodo := "posnet", monto := 7 }],
                     cierreFecha := none }] }
      = .ok
      { productos := [], gastos := [], proveedores := [], fiados := [], cierres := [],
        ventas := List.map (aplicarMetodo "v1" "mercadopago")
                   [{ id := "v1", fecha := "t", items := [], metodo := "efectivo",
                      total := 100, pagos := [{ metodo := "efectivo", monto := 100 }],
                      cierreFecha := none },
                    { id := "v2", fecha := "t", items := [], metodo := "posnet",
                      total := 7, pagos := [{ metodo := "posnet", monto := 7 }],
                      cierreFecha := none }] } :=
  ((c10_actualizarMetodo_single_payment
    { productos := [], gastos := [], proveedores := [], fiados := [], cierres := [],
      ventas := [{ id := "v1", fecha := "t", items := [], metodo := "efectivo",
                   total := 100, pagos := [{ metodo := "efectivo", monto := 100 }],
                   cierreFecha := none },
                 { id := "v2", fecha := "t", items := [], metodo := "posnet",
                   total := 7, pagos := [{ metodo := "posnet", monto := 7 }],
                   cierreFecha := none }] }
    "v1" "mercadopago"
    { id := "v1", fecha := "t", items := [], metodo := "efectivo",
      total := 100, pagos := [{ metodo := "efectivo", monto := 100 }],
      cierreFecha := none }
    (by decide) rfl).2
    { metodo := "efectivo", monto := 100 } rfl).1

/-! ### C4 -/

/-- Updating a date's record and looking the same date up returns the record. -/
theorem lookupCierre_set_same (fecha : String) (r : Cierre) (cs : List (String × Cierre)) :
    lookupCierre (setCierre fecha r cs) fecha = some r := by
  simp [lookupCierre, setCierre]

/-- Characterization of closing a day and immediately reopening it. -/
theorem close_reopen_state (s : AppState) (fecha : String) (caja pedYa : ℚ) :
    reabrirDia fecha (cerrarDefinitivo fecha caja pedYa s)
      = { s with
          cierres :=
            setCierre fecha
              { (lookupCierre s.cierres fecha).getD {} with
                efectivoCajaProxDia := some caja, efectivoPedidosYa := some pedYa,
                cerrado := false }
              (setCierre fecha
                { (lookupCierre s.cierres fecha).getD {} with
                  efectivoCajaProxDia := some caja, efectivoPedidosYa := some pedYa,
                  cerrado := true } s.cierres),
          ventas :=
            s.ventas.map (fun v =>
              if v.cierreFecha = none ∨ v.cierreFecha = some fecha then
                { v with cierreFecha := none } else v) } := by
  have hcd : diaCerrado (cerrarDefinitivo fecha caja pedYa s).cierres fecha = true := by
    simp [diaCerrado, cerrarDefinitivo, lookupCierre_set_same]
  simp only [reabrirDia, hcd, not_true, if_neg, ite_false, Bool.not_eq_true]
  simp only [cerrarDefinitivo, lookupCierre_set_same, Option.getD_some, List.map_map]
  refine congrArg₂ (fun a b => AppState.mk s.productos b s.gastos s.proveedores a s.fiados) rfl ?_
  apply List.map_congr_left
  intro v _
  cases hv : v.cierreFecha with
  | none => simp [Function.comp, hv]
  | some f =>
    by_cases hf : f = fecha
    · simp [Function.comp, hv, hf]
    · simp [Function.comp, hv, hf]

/-- C4: closing a date and then reopening it leaves that date's record with
`cerrado = false`, keeps the sales collection the same length, and every
sale that was unassigned before the close is restored exactly as it was —
un-stamped and no longer blocked by the closed-day lock. -/
theorem c4_close_reopen_roundtrip :
    ∀ (s : AppState) (fecha : String) (caja pedYa : ℚ),
      (∃ rec : Cierre,
        lookupCierre (reabrirDia fecha (cerrarDefinitivo fecha caja pedYa s)).cierres fecha
          = some rec ∧ rec.cerrado = false)
      ∧ (reabrirDia fecha (cerrarDefinitivo fecha caja pedYa s)).ventas.length
          = s.ventas.length
      ∧ ∀ (i : ℕ) (v : Venta), s.ventas[i]? = some v → v.cierreFecha = none →
          (reabrirDia fecha (cerrarDefinitivo fecha caja pedYa s)).ventas[i]? = some v
          ∧ ventaBloqueada (reabrirDia fecha (cerrarDefinitivo fecha caja pedYa s)).cierres v
              = false := by
  intro s fecha caja pedYa
  rw [close_reopen_state]
  refine ⟨⟨_, lookupCierre_set_same _ _ _, rfl⟩, by simp, ?_⟩
  intro i v hv hcf
  have hrestore :
      (fun v : Venta =>
        if v.cierreFecha = none ∨ v.cierreFecha = some fecha then
          { v with cierreFecha := none } else v) v = v := by
    cases v
    simp_all
  refine ⟨?_, by simp [ventaBloqueada, hcf]⟩
  simp only [List.getElem?_map, hv]
  simp [hrestore]

/-- Witness for C4: close then reopen 2025-01-01 over a one-sale ledger whose
sale is unassigned; the sale comes back untouched and unlocked. -/
theorem c4_close_reopen_roundtrip_witness :
    (reabrirDia "2025-01-01" (cerrarDefinitivo "2025-01-01" 300 200
      { productos := [], gastos := [], proveedores := [], fiados := [], cierres := [],
        ventas := [{ id := "v1", fecha := "t", items := [], metodo := "efectivo",
                     total := 100, pagos := [{ metodo := "efectivo", monto := 100 }],
                     cierreFecha := none }] })).ventas[0]?
      = some { id := "v1", fecha := "t", items := [], metodo := "efectivo",
               total := 100, pagos := [{ metodo := "efectivo", monto := 100 }],
               cierreFecha := none } :=
  ((c4_close_reopen_roundtrip
    { productos := [], gastos := [], proveedores := [], fiados := [], cierres := [],
      ventas := [{ id := "v1", fecha := "t", items := [], metodo := "efectivo",
                   total := 100, pagos := [{ metodo := "efectivo", monto := 100 }],
                   cierreFecha := none }] }
    "2025-01-01" 300 200).2.2 0
    { id := "v1", fecha := "t", items := [], metodo := "efectivo",
      total := 100, pagos := [{ metodo := "efectivo", monto := 100 }],
      cierreFecha := none } rfl rfl).1

/-! ### C5 -/

/-- C5: `agregarAbono` refuses — returning no new state — when no account
matches the trimmed name case-insensitively, when the parsed amount is not
strictly positive, or when the supplied secret differs from the fixed
settlement secret; on success it leaves every other collection unchanged,
prepends exactly the one payment to the matching account, filters the
accounts to those whose recomputed balance exceeds 0.0001, and in particular
every surviving account has balance above 0.0001. -/
theorem c5_agregarAbono_contract :
    ∀ (abonoNombre abonoMonto abonoPassword now newId : String) (s : AppState),
      ((¬ s.fiados.any
           (fun p => decide (toLowerStr p.nombre = toLowerStr (trimStr abonoNombre)))
        ∨ parseMoneyInputStr abonoMonto ≤ 0
        ∨ ¬ abonoPassword = PASSWORD_ABONO) →
        agregarAbono abonoNombre abonoMonto abonoPassword now newId s = none)
      ∧ (∀ s', agregarAbono abonoNombre abonoMonto abonoPassword now newId s = some s' →
          s'.productos = s.productos ∧ s'.ventas = s.ventas ∧ s'.gastos = s.gastos
          ∧ s'.proveedores = s.proveedores ∧ s'.cierres = s.cierres
          ∧ s'.fiados =
              (s.fiados.map (addAbonoIfMatch (trimStr abonoNombre)
                  { id := newId, fecha := now, monto := parseMoneyInputStr abonoMonto })).filter
                (fun p => decide (1 / 10000 < computeSaldoPersona p s.productos))
          ∧ ∀ p, p ∈ s'.fiados → 1 / 10000 < computeSaldoPersona p s.productos) := by
  intro abonoNombre abonoMonto abonoPassword now newId s
  constructor
  · intro hfail
    simp only [agregarAbono]
    split_ifs with h1 h2 h3 h4 h5 <;> try rfl
    rcases hfail with hf | hf | hf
    · exact hf h3
    · exact h2 hf
    · exact hf h5
  · intro s' hok
    simp only [agregarAbono] at hok
    split_ifs at hok
    injection hok with hok
    subst hok
    refine ⟨rfl, rfl, rfl, rfl, rfl, rfl, ?_⟩
    intro p hp
    have := List.of_mem_filter hp
    simpa using this

/-- Witness for C5: paying 40 with the right secret on Juan's account (one
frozen 50-peso charge) keeps the account, now holding the payment, with
balance 10. -/
theorem c5_agregarAbono_contract_witness :
    (AppState.fiados
      { productos := [], ventas := [], gastos := [], proveedores := [], cierres := [],
        fiados := [{ id := "f1", nombre := "Juan",
                     cargos := [{ id := "c1", fecha := "t",
                                  items := [{ ean := "123", qty := 1, precioUnitario := some 50 }] }],
                     abonos := [{ id := "a1", fecha := "t2", monto := 40 }] }] })
      = (([{ id := "f1", nombre := "Juan",
             cargos := [{ id := "c1", fecha := "t",
                          items := [{ ean := "123", qty := 1, precioUnitario := some 50 }] }],
             abonos := [] }] : List Fiador).map
            (addAbonoIfMatch (trimStr "Juan") { id := "a1", fecha := "t2", monto := parseMoneyInputStr "40" })).filter
          (fun p => decide (1 / 10000 < computeSaldoPersona p ([] : List Producto))) :=
  ((c5_agregarAbono_contract "Juan" "40" "19256436" "t2" "a1"
    { productos := [], ventas := [], gastos := [], proveedores := [], cierres := [],
      fiados := [{ id := "f1", nombre := "Juan",
                   cargos := [{ id := "c1", fecha := "t",
                                items := [{ ean := "123", qty := 1, precioUnitario := some 50 }] }],
                   abonos := [] }] }).2
    { productos := [], ventas := [], gastos := [], proveedores := [], cierres := [],
      fiados := [{ id := "f1", nombre := "Juan",
                   cargos := [{ id := "c1", fecha := "t",
                                items := [{ ean := "123", qty := 1, precioUnitario := some 50 }] }],
                   abonos := [{ id := "a1", fecha := "t2", monto := 40 }] }] }
    (by decide)).2.2.2.2.2.1

/-! ### C3 -/

/-- C3: in multi-payment mode, the sale is recorded only when the declared
split is non-empty and its sum matches the cart total within 0.01; every
failed check refuses with an error and produces no new state, and a
successful finalization prepends exactly one sale whose total is the
line-item sum and whose payments are the declared split (ids stripped),
leaving every other collection unchanged. -/
theorem c3_multipago_settlement :
    ∀ (items : List Item) (metodo : String) (pagosTemp : List PagoTemp)
      (now newVentaId : String) (s : AppState),
      ¬ metodo = "fiado" →
        ((pagosTemp = [] ∨ 1 / 100 < |pagosTempTotal pagosTemp - cartTotal items|) →
          ∃ msg, finalizar items metodo true pagosTemp "" now newVentaId "" "" s = .error msg)
        ∧ (∀ s', finalizar items metodo true pagosTemp "" now newVentaId "" "" s = .ok s' →
            ¬ pagosTemp = [] ∧ |pagosTempTotal pagosTemp - cartTotal items| ≤ 1 / 100
            ∧ s'.ventas =
                { id := newVentaId, fecha := now, items := items, metodo := "mixto",
                  total := cartTotal items,
                  pagos := pagosTemp.map (fun p => ({ metodo := p.metodo, monto := p.monto } : Pago)),
                  cierreFecha := none } :: s.ventas
            ∧ s'.productos = s.productos ∧ s'.gastos = s.gastos ∧ s'.proveedores = s.proveedores
            ∧ s'.cierres = s.cierres ∧ s'.fiados = s.fiados) := by
  intro items metodo pagosTemp now newVentaId s hmet
  constructor
  · intro hfail
    simp only [finalizar, hmet, if_false, if_true]
    split_ifs with h1 h2 h3 h4
    · exact ⟨_, rfl⟩
    · exact ⟨_, rfl⟩
    · exact ⟨_, rfl⟩
    · exact ⟨_, rfl⟩
    · rcases hfail with hf | hf
      · exact absurd hf h3
      · exact absurd hf h4
  · intro s' hok
    simp only [finalizar, hmet, if_false, if_true] at hok
    split_ifs at hok with h1 h2 h3 h4
    injection hok with hok
    subst hok
    exact ⟨h3, not_lt.mp h4, rfl, rfl, rfl, rfl, rfl, rfl⟩

/-- Witness for C3: a two-line split (50 cash + 10 posnet) over a 60-peso
cart is accepted and recorded as one "mixto" sale. -/
theorem c3_multipago_settlement_witness :
    (AppState.ventas
      { productos := [], gastos := [], proveedores := [], cierres := [], fiados := [],
        ventas := [{ id := "nv", fecha := "t",
                     items := [{ id := "i1", ean := "77", nombre := "Pan", precio := 30, qty := 2 }],
                     metodo := "mixto",
                     total := cartTotal [{ id := "i1", ean := "77", nombre := "Pan", precio := 30, qty := 2 }],
                     pagos := [{ metodo := "efectivo", monto := 50 }, { metodo := "posnet", monto := 10 }],
                     cierreFecha := none }] })
      = { id := "nv", fecha := "t",
          items := [{ id := "i1", ean := "77", nombre := "Pan", precio := 30, qty := 2 }],
          metodo := "mixto",
          total := cartTotal [{ id := "i1", ean := "77", nombre := "Pan", precio := 30, qty := 2 }],
          pagos := ([{ id := "pt1", metodo := "efectivo", monto := 50 },
                     { id := "pt2", metodo := "posnet", monto := 10 }] : List PagoTemp).map
                     (fun p => ({ metodo := p.metodo, monto := p.monto } : Pago)),
          cierreFecha := none } :: ([] : List Venta) :=
  ((c3_multipago_settlement
      [{ id := "i1", ean := "77", nombre := "Pan", precio := 30, qty := 2 }]
      "efectivo"
      [{ id := "pt1", metodo := "efectivo", monto := 50 },
       { id := "pt2", metodo := "posnet", monto := 10 }]
      "t" "nv"
      { productos := [], ventas := [], gastos := [], proveedores := [], cierres := [], fiados := [] }
      (by decide)).2
    { productos := [], gastos := [], proveedores := [], cierres := [], fiados := [],
      ventas := [{ id := "nv", fecha := "t",
                   items := [{ id := "i1", ean := "77", nombre := "Pan", precio := 30, qty := 2 }],
                   metodo := "mixto",
                   total := cartTotal [{ id := "i1", ean := "77", nombre := "Pan", precio := 30, qty := 2 }],
                   pagos := [{ metodo := "efectivo", monto := 50 }, { metodo := "posnet", monto := 10 }],
                   cierreFecha := none }] }
    rfl).2.2.1

/-! ### C7 -/

/-- C7: finalizing in fiado mode never touches the sales collection (so the
per-day closing view is unchanged for every date, open or closed), leaves
products, expenses, suppliers and closings unchanged, and appends exactly
one charge: prepended to the first account matching the entered name
case-insensitively, or carried by a brand-new account with no payments when
no account matches. -/
theorem c7_fiado_no_sale :
    ∀ (items : List Item) (multiPago : Bool) (pagosTemp : List PagoTemp)
      (fiadoNombre now newVentaId newFiadorId newCargoId : String) (s s' : AppState),
      finalizar items "fiado" multiPago pagosTemp fiadoNombre now newVentaId newFiadorId newCargoId s
        = .ok s' →
        s'.ventas = s.ventas
        ∧ (∀ (fecha : String) (cerrado : Bool),
            ventasDelDia s'.ventas fecha cerrado = ventasDelDia s.ventas fecha cerrado)
        ∧ s'.productos = s.productos ∧ s'.gastos = s.gastos
        ∧ s'.proveedores = s.proveedores ∧ s'.cierres = s.cierres
        ∧ s'.fiados =
            (if s.fiados.any
                (fun p => decide (toLowerStr p.nombre = toLowerStr (trimStr fiadoNombre))) then
              addCargoFirstMatch (trimStr fiadoNombre)
                { id := newCargoId, fecha := now, items := cargoItemsOf items s.productos } s.fiados
            else
              s.fiados ++ [{ id := newFiadorId, nombre := trimStr fiadoNombre,
                             cargos := [{ id := newCargoId, fecha := now,
                                          items := cargoItemsOf items s.productos }],
                             abonos := [] }]) := by
  intro items multiPago pagosTemp fiadoNombre now newVentaId newFiadorId newCargoId s s' hok
  by_cases h1 : items = []
  · simp [finalizar, h1] at hok
  · by_cases h2 : items.any (fun it => decide (it.precio < 0)) = true
    · simp [finalizar, h1, h2] at hok
    · by_cases h3 : trimStr fiadoNombre = ""
      · simp [finalizar, h1, h2, h3] at hok
      · by_cases h4 : s.fiados.any
            (fun p => decide (toLowerStr p.nombre = toLowerStr (trimStr fiadoNombre))) = true
        · simp only [finalizar, h1, h2, h3, h4, if_true, if_false, ite_false, ite_true,
            Bool.false_eq_true, if_neg, reduceIte] at hok
          simp [finalizar, h1, h2, h3, h4] at hok
          subst hok
          exact ⟨rfl, fun _ _ => rfl, rfl, rfl, rfl, rfl, by simp [h4]⟩
        · simp [finalizar, h1, h2, h3, h4] at hok
          subst hok
          exact ⟨rfl, fun _ _ => rfl, rfl, rfl, rfl, rfl, by simp [h4]⟩

/-- Witness for C7: a 50-peso zero-catalog-price line charged to the new
account "Juan" creates the account with the frozen charge and no payments. -/
theorem c7_fiado_no_sale_witness :
    (AppState.ventas
      { productos := [{ id := "p1", ean := "123", nombre := "Leche", precio := 0 }],
        gastos := [], proveedores := [], cierres := [], ventas := [],
        fiados := [{ id := "nf", nombre := "Juan",
                     cargos := [{ id := "nc", fecha := "t",
                                  items := [{ ean := "123", qty := 1, precioUnitario := some 50 }] }],
                     abonos := [] }] })
      = ([] : List Venta) :=
  (c7_fiado_no_sale
    [{ id := "i1", ean := "123", nombre := "Leche", precio := 50, qty := 1 }]
    false [] "Juan" "t" "nv" "nf" "nc"
    { productos := [{ id := "p1", ean := "123", nombre := "Leche", precio := 0 }],
      ventas := [], gastos := [], proveedores := [], cierres := [], fiados := [] }
    { productos := [{ id := "p1", ean := "123", nombre := "Leche", precio := 0 }],
      gastos := [], proveedores := [], cierres := [], ventas := [],
      fiados := [{ id := "nf", nombre := "Juan",
                   cargos := [{ id := "nc", fecha := "t",
                                items := [{ ean := "123", qty := 1, precioUnitario := some 50 }] }],
                   abonos := [] }] }
    rfl).1

/-! ### C8 -/

/-- C8: scanning a product whose catalog price is 0 builds the cart line
with the interactively supplied override price; the catalog component of the
handler's result is the unmodified input catalog, and no branch of
`finalizar` (cash, split, or credit settlement) ever changes the catalog. -/
theorem c8_zero_price_override :
    ∀ (codigo : String) (productos : List Producto) (items : List Item) (m : ℚ)
      (newId : String) (prod : Producto),
      productos.find? (fun x => decide (toLowerStr x.ean = toLowerStr (trimStr codigo)))
        = some prod →
      prod.precio = 0 →
      ¬ trimStr codigo = "" →
        addByCode codigo productos items (some m) newId
          = some
            ((if items.any (fun i => decide (i.ean = prod.ean ∧ i.precio = m)) then
                items.map (fun i =>
                  if decide (i.ean = prod.ean ∧ i.precio = m) then { i with qty := i.qty + 1 }
                  else i)
              else
                items ++ [{ id := newId, ean := prod.ean, nombre := prod.nombre,
                            precio := m, qty := 1 }]),
             productos)
        ∧ (∀ (st st' : AppState) (itms : List Item) (met : String) (mp : Bool)
            (pt : List PagoTemp) (fn now nv nf nc : String),
            finalizar itms met mp pt fn now nv nf nc st = .ok st' → st'.productos = st.productos) := by
  intro codigo productos items m newId prod hfind hzero hcode
  constructor
  · simp [addByCode, hcode, hfind, hzero]
  · intro st st' itms met mp pt fn now nv nf nc h
    simp only [finalizar] at h
    split_ifs at h <;>
      first
      | exact Except.noConfusion h
      | (injection h with h; subst h; rfl)

/-- Witness for C8: scanning ean "123" (catalog price 0) with override 50
adds the 50-peso line and returns the catalog unchanged. -/
theorem c8_zero_price_override_witness :
    addByCode "123" [{ id := "p1", ean := "123", nombre := "Leche", precio := 0 }] []
        (some 50) "n1"
      = some ([{ id := "n1", ean := "123", nombre := "Leche", precio := 50, qty := 1 }],
              [{ id := "p1", ean := "123", nombre := "Leche", precio := 0 }]) := by
  have h :=
    (c8_zero_price_override "123" [{ id := "p1", ean := "123", nombre := "Leche", precio := 0 }]
      [] 50 "n1" { id := "p1", ean := "123", nombre := "Leche", precio := 0 }
      (by decide) rfl (by decide)).1
  simpa using h

end Despensa
